import Mathlib

/-!
Verification of the pan/zoom/crop viewport-transform engine of the
PCFControls ImageCrop control.

The source is embedded shallowly over `ℚ`: every JavaScript number is a
rational (all the constants of the engine — 0.4, 3.0, 0.001, 8, 200 — are
exact rationals, and the claims about floating-point code are stated "to
floating-point tolerance", which the rational model realises exactly).
`Math.max`/`Math.min` become `max`/`min` on `ℚ`, and every value of `ℚ` is
finite, so "finite" claims about outputs hold by the type.

Sources embedded:
* `viewportUtils.ts` — `getCoverScale`, `getCenterTranslation`,
  `clampTranslation`, `getScaleLimits`, `zoomAtPoint`;
* `useImageViewTransform.ts` — the resize-reconciliation branch and the
  store operations `panBy`, `applyScale`, `zoomAt`, `setTransformDirect`,
  each modelled as a pure state-transition function;
* `imageCropControl.tsx` — `defaultViewportCrop200`,
  `viewportCropToNaturalPx`, `imageCropToViewportPx`, the crop-init
  fallback chain and the zoom-multiplier output effect.
-/

namespace ImageCrop

/-- `ViewTransform` from `viewportUtils.ts`: scale plus translation, with
transform-origin at the image's top-left corner. -/
structure ViewTransform where
  scale : ℚ
  translateX : ℚ
  translateY : ℚ
deriving DecidableEq, Repr

/-- A translation pair, the return value of `clampTranslation`,
`getCenterTranslation` and `zoomAtPoint` (`{translateX, translateY}`). -/
structure Translation where
  translateX : ℚ
  translateY : ℚ
deriving DecidableEq, Repr

/-- `MIN_ZOOM_MULTIPLIER` in `viewportUtils.ts`. -/
def MIN_ZOOM_MULTIPLIER : ℚ := 0.4

/-- `MAX_ZOOM_MULTIPLIER` in `viewportUtils.ts`. -/
def MAX_ZOOM_MULTIPLIER : ℚ := 3.0

/-- `getCoverScale` from `viewportUtils.ts`:
`if (imgW <= 0 || imgH <= 0) return 1; return Math.max(viewportW/imgW, viewportH/imgH)`. -/
def getCoverScale (viewportW viewportH imgW imgH : ℚ) : ℚ :=
  if imgW ≤ 0 ∨ imgH ≤ 0 then 1
  else max (viewportW / imgW) (viewportH / imgH)

/-- `getCenterTranslation` from `viewportUtils.ts`. -/
def getCenterTranslation (viewportW viewportH imgW imgH scale : ℚ) : Translation :=
  let scaledW := imgW * scale
  let scaledH := imgH * scale
  ⟨(viewportW - scaledW) / 2, (viewportH - scaledH) / 2⟩

/-- One axis of `clampTranslation`: the JS initialises the bounds to
`min = viewport - r, max = 0` and overwrites both with the centering value
`(viewport - r) / 2` when `r < viewport`; the result is
`Math.max(min, Math.min(max, t))`. -/
def clampTranslationAxis (viewport r t : ℚ) : ℚ :=
  if r < viewport then
    max ((viewport - r) / 2) (min ((viewport - r) / 2) t)
  else
    max (viewport - r) (min 0 t)

/-- `clampTranslation` from `viewportUtils.ts`: rendered size
`rw = imgW*scale, rh = imgH*scale`, each axis clamped independently. -/
def clampTranslation (viewportW viewportH imgW imgH scale tX tY : ℚ) : Translation :=
  ⟨clampTranslationAxis viewportW (imgW * scale) tX,
   clampTranslationAxis viewportH (imgH * scale) tY⟩

/-- `ScaleLimits`, the return shape of `getScaleLimits`. -/
structure ScaleLimits where
  minScale : ℚ
  maxScale : ℚ
  baseScale : ℚ
deriving DecidableEq, Repr

/-- `getScaleLimits` from `viewportUtils.ts`: degenerate dimensions get the
guarded default `{minScale: 0.001, maxScale: 8, baseScale: 1}`. -/
def getScaleLimits (viewportW viewportH imgW imgH : ℚ) : ScaleLimits :=
  if viewportW ≤ 0 ∨ viewportH ≤ 0 ∨ imgW ≤ 0 ∨ imgH ≤ 0 then
    ⟨0.001, 8, 1⟩
  else
    let baseScale := getCoverScale viewportW viewportH imgW imgH
    ⟨baseScale * MIN_ZOOM_MULTIPLIER, baseScale * MAX_ZOOM_MULTIPLIER, baseScale⟩

/-- `zoomAtPoint` from `viewportUtils.ts`: translation that keeps the image
point under `(px, py)` fixed across the scale change, then clamped. -/
def zoomAtPoint (viewportW viewportH imgW imgH scale newScale tX tY px py : ℚ) :
    Translation :=
  let factor := newScale / scale
  let tx := px - (px - tX) * factor
  let ty := py - (py - tY) * factor
  clampTranslation viewportW viewportH imgW imgH newScale tx ty

/-! ### View-transform store (`useImageViewTransform.ts`)

Each React state update `setTransform(prev => ...)` is modelled as a pure
function from the previous `ViewTransform` (and the viewport/natural
dimensions closed over by the hook) to the next one. -/

/-- The hook's `clamp` callback: re-clamp a transform's translation at its
own scale, leaving the scale untouched. -/
def clampTransform (viewportW viewportH naturalW naturalH : ℚ)
    (t : ViewTransform) : ViewTransform :=
  let c := clampTranslation viewportW viewportH naturalW naturalH
    t.scale t.translateX t.translateY
  ⟨t.scale, c.translateX, c.translateY⟩

/-- `panBy` from `useImageViewTransform.ts`: add the deltas to the
translation, then clamp. -/
def panBy (viewportW viewportH naturalW naturalH : ℚ)
    (prev : ViewTransform) (deltaX deltaY : ℚ) : ViewTransform :=
  clampTransform viewportW viewportH naturalW naturalH
    ⟨prev.scale, prev.translateX + deltaX, prev.translateY + deltaY⟩

/-- `applyScale` from `useImageViewTransform.ts`: clamp the requested scale
into the current limits, anchor at the given point (viewport centre when the
anchor is omitted, JS `anchorPx ?? viewportWidth / 2`), run `zoomAtPoint`,
and clamp the result. -/
def applyScale (viewportW viewportH naturalW naturalH : ℚ)
    (prev : ViewTransform) (newScale : ℚ) (anchorPx anchorPy : Option ℚ) :
    ViewTransform :=
  let limits := getScaleLimits viewportW viewportH naturalW naturalH
  let clampedScale := max limits.minScale (min limits.maxScale newScale)
  let px := anchorPx.getD (viewportW / 2)
  let py := anchorPy.getD (viewportH / 2)
  let c := zoomAtPoint viewportW viewportH naturalW naturalH
    prev.scale clampedScale prev.translateX prev.translateY px py
  clampTransform viewportW viewportH naturalW naturalH
    ⟨clampedScale, c.translateX, c.translateY⟩

/-- `zoomAt` from `useImageViewTransform.ts`: multiply the current scale by
`deltaScale`, pre-clamp into the limits, and delegate to `applyScale`. -/
def zoomAt (viewportW viewportH naturalW naturalH : ℚ)
    (t : ViewTransform) (viewportPx viewportPy deltaScale : ℚ) : ViewTransform :=
  let limits := getScaleLimits viewportW viewportH naturalW naturalH
  let proposedScale := t.scale * deltaScale
  let clampedScale := max limits.minScale (min limits.maxScale proposedScale)
  applyScale viewportW viewportH naturalW naturalH t clampedScale
    (some viewportPx) (some viewportPy)

/-- `setTransformDirect` from `useImageViewTransform.ts`: store the given
transform after clamping its translation (scale kept verbatim). -/
def setTransformDirect (viewportW viewportH naturalW naturalH : ℚ)
    (t : ViewTransform) : ViewTransform :=
  clampTransform viewportW viewportH naturalW naturalH t

/-- The viewport-only-resize branch of the effect in
`useImageViewTransform.ts` (the `isResize` case): preserve the relative zoom
factor `t.scale / oldBaseScale`, clamp the rescaled value into
`[newBaseScale, maxScale]`, re-centre the image point that was at the old
viewport centre, and clamp the translation. -/
def resizeReconcile (oldW oldH viewportW viewportH naturalW naturalH : ℚ)
    (t : ViewTransform) : ViewTransform :=
  let oldBaseScale := getCoverScale oldW oldH naturalW naturalH
  let newBaseScale := getCoverScale viewportW viewportH naturalW naturalH
  let maxScale := (getScaleLimits viewportW viewportH naturalW naturalH).maxScale
  let zoomFactor := if 0 < oldBaseScale then t.scale / oldBaseScale else 1
  let newScale := max newBaseScale (min maxScale (newBaseScale * zoomFactor))
  let imgCenterX := (oldW / 2 - t.translateX) / t.scale
  let imgCenterY := (oldH / 2 - t.translateY) / t.scale
  let newTx := viewportW / 2 - imgCenterX * newScale
  let newTy := viewportH / 2 - imgCenterY * newScale
  let c := clampTranslation viewportW viewportH naturalW naturalH newScale newTx newTy
  ⟨newScale, c.translateX, c.translateY⟩

/-! ### Coordinate bridge and crop state (`imageCropControl.tsx`) -/

/-- `ZOOM_MULTIPLIER_MIN` in `imageCropControl.tsx`. -/
def ZOOM_MULTIPLIER_MIN : ℚ := 0.4

/-- `ZOOM_MULTIPLIER_MAX` in `imageCropControl.tsx`. -/
def ZOOM_MULTIPLIER_MAX : ℚ := 3.0

/-- The `unit` tag of a `react-image-crop` `Crop`: `"px"` or `"%"`. -/
inductive CropUnit where
  | px
  | pct
deriving DecidableEq, Repr

/-- A `react-image-crop` `Crop`/`PixelCrop` rectangle: a unit tag plus
position and size. -/
structure Crop where
  unit : CropUnit
  x : ℚ
  y : ℚ
  width : ℚ
  height : ℚ
deriving DecidableEq, Repr

/-- A plain viewport-space rectangle, the first argument of
`viewportCropToNaturalPx` (`{x, y, width, height}`). -/
structure ViewportRect where
  x : ℚ
  y : ℚ
  width : ℚ
  height : ℚ
deriving DecidableEq, Repr

/-- `defaultViewportCrop200` from `imageCropControl.tsx`: a 200×200
viewport-pixel box, clamped to the viewport and centred. -/
def defaultViewportCrop200 (viewportW viewportH : ℚ) : Crop :=
  let defaultW := min 200 viewportW
  let defaultH := min 200 viewportH
  ⟨CropUnit.px, (viewportW - defaultW) / 2, (viewportH - defaultH) / 2,
   defaultW, defaultH⟩

/-- `viewportCropToNaturalPx` from `imageCropControl.tsx`: inverse-map the
viewport rectangle through the transform, then clamp to the image extents
(min corner first, max corner kept ≥ the min corner). -/
def viewportCropToNaturalPx (viewportCrop : ViewportRect)
    (scale tx ty naturalW naturalH : ℚ) : Crop :=
  let ix := (viewportCrop.x - tx) / scale
  let iy := (viewportCrop.y - ty) / scale
  let iw := viewportCrop.width / scale
  let ih := viewportCrop.height / scale
  let x1 := max 0 (min ix naturalW)
  let y1 := max 0 (min iy naturalH)
  let x2 := max x1 (min (ix + iw) naturalW)
  let y2 := max y1 (min (iy + ih) naturalH)
  ⟨CropUnit.px, x1, y1, max 0 (x2 - x1), max 0 (y2 - y1)⟩

/-- `imageCropToViewportPx` from `imageCropControl.tsx`: resolve a
percentage crop to native pixels, then forward-map through the transform. -/
def imageCropToViewportPx (c : Crop) (naturalW naturalH scale tx ty
    viewportW viewportH : ℚ) : Crop :=
  let imgX := if c.unit = CropUnit.pct then c.x / 100 * naturalW else c.x
  let imgY := if c.unit = CropUnit.pct then c.y / 100 * naturalH else c.y
  let imgW := if c.unit = CropUnit.pct then c.width / 100 * naturalW else c.width
  let imgH := if c.unit = CropUnit.pct then c.height / 100 * naturalH else c.height
  ⟨CropUnit.px, imgX * scale + tx, imgY * scale + ty, imgW * scale, imgH * scale⟩

/-- The `completedCrop` leg of the crop-init fallback chain in
`imageCropControl.tsx`: a completed (native-pixel) crop is forward-mapped
field by field when it has positive size, else the 200×200 default. -/
def cropInitFromCompleted (completedCrop : Option Crop)
    (scale tx ty viewportW viewportH : ℚ) : Crop :=
  match completedCrop with
  | some cc =>
    if 0 < cc.width ∧ 0 < cc.height then
      ⟨CropUnit.px, cc.x * scale + tx, cc.y * scale + ty,
       cc.width * scale, cc.height * scale⟩
    else defaultViewportCrop200 viewportW viewportH
  | none => defaultViewportCrop200 viewportW viewportH

/-- The `fallback` expression of the crop-init effect in
`imageCropControl.tsx` (the value stored by `setCrop` when crop-editing
becomes active with `crop == null`): host `defaultCrop` first, then the
previously completed crop, then `defaultViewportCrop200`. -/
def cropInitFallback (defaultCrop completedCrop : Option Crop)
    (naturalW naturalH scale tx ty viewportW viewportH : ℚ) : Crop :=
  match defaultCrop with
  | some dc =>
    if 0 < dc.width ∧ 0 < dc.height then
      imageCropToViewportPx dc naturalW naturalH scale tx ty viewportW viewportH
    else cropInitFromCompleted completedCrop scale tx ty viewportW viewportH
  | none => cropInitFromCompleted completedCrop scale tx ty viewportW viewportH

/-- `isTransformReady` from `imageCropControl.tsx`: all four dimensions
measured strictly positive. -/
def isTransformReady (viewportW viewportH naturalW naturalH : ℚ) : Bool :=
  0 < naturalW ∧ 0 < naturalH ∧ 0 < viewportW ∧ 0 < viewportH

/-- The zoom-multiplier sync effect in `imageCropControl.tsx`: when the
transform is ready and `baseScale > 0`, publish
`clamp(scale / baseScale, ZOOM_MULTIPLIER_MIN, ZOOM_MULTIPLIER_MAX)`;
otherwise publish nothing (`none`). -/
def zoomMultiplierOutput (viewportW viewportH naturalW naturalH scale : ℚ) :
    Option ℚ :=
  if !isTransformReady viewportW viewportH naturalW naturalH then none
  else
    let baseScale :=
      (getScaleLimits viewportW viewportH naturalW naturalH).baseScale
    if baseScale ≤ 0 then none
    else some (max ZOOM_MULTIPLIER_MIN (min ZOOM_MULTIPLIER_MAX (scale / baseScale)))

/-! ### Derived predicates and helper lemmas -/

/-- The cover condition on one axis, as the spec states it: when the scaled
image spans the viewport (`viewport ≤ r`), the translation lies in
`[viewport - r, 0]`; otherwise the image is exactly centred on that axis. -/
def CoverAxis (viewport r t : ℚ) : Prop :=
  if viewport ≤ r then viewport - r ≤ t ∧ t ≤ 0 else t = (viewport - r) / 2

/-- The cover condition on a stored transform: both axes covered at the
transform's own scale. -/
def CoverCond (viewportW viewportH naturalW naturalH : ℚ) (t : ViewTransform) : Prop :=
  CoverAxis viewportW (naturalW * t.scale) t.translateX ∧
  CoverAxis viewportH (naturalH * t.scale) t.translateY

lemma clampTranslationAxis_of_lt {viewport r : ℚ} (h : r < viewport) (t : ℚ) :
    clampTranslationAxis viewport r t = (viewport - r) / 2 := by
  unfold clampTranslationAxis
  rw [if_pos h, min_comm, max_comm, max_eq_right (min_le_right _ _)]

lemma clampTranslationAxis_cover (viewport r t : ℚ) :
    CoverAxis viewport r (clampTranslationAxis viewport r t) := by
  unfold CoverAxis
  rcases lt_or_le r viewport with h | h
  · rw [if_neg (not_le.mpr h), clampTranslationAxis_of_lt h]
  · rw [if_pos h]
    unfold clampTranslationAxis
    rw [if_neg (not_lt.mpr h)]
    exact ⟨le_max_left _ _, max_le (by linarith) (min_le_left _ _)⟩

lemma clampTranslationAxis_idem (viewport r t : ℚ) :
    clampTranslationAxis viewport r (clampTranslationAxis viewport r t)
      = clampTranslationAxis viewport r t := by
  rcases lt_or_le r viewport with h | h
  · rw [clampTranslationAxis_of_lt h, clampTranslationAxis_of_lt h]
  · have hout := clampTranslationAxis_cover viewport r t
    rw [CoverAxis, if_pos h] at hout
    unfold clampTranslationAxis
    rw [if_neg (not_lt.mpr h), if_neg (not_lt.mpr h)]
    rw [min_eq_right, max_eq_right]
    · exact le_max_left _ _
    · exact max_le (by linarith [hout.1, hout.2]) (min_le_left _ _)

lemma clampTransform_cover (viewportW viewportH naturalW naturalH : ℚ)
    (t : ViewTransform) :
    CoverCond viewportW viewportH naturalW naturalH
      (clampTransform viewportW viewportH naturalW naturalH t) :=
  ⟨clampTranslationAxis_cover _ _ _, clampTranslationAxis_cover _ _ _⟩

lemma getCoverScale_pos {viewportW viewportH imgW imgH : ℚ}
    (hvw : 0 < viewportW) (hiw : 0 < imgW) :
    0 < getCoverScale viewportW viewportH imgW imgH := by
  unfold getCoverScale
  split
  · exact one_pos
  · exact lt_max_of_lt_left (div_pos hvw hiw)

lemma getScaleLimits_of_pos {viewportW viewportH imgW imgH : ℚ}
    (hvw : 0 < viewportW) (hvh : 0 < viewportH)
    (hiw : 0 < imgW) (hih : 0 < imgH) :
    getScaleLimits viewportW viewportH imgW imgH =
      ⟨getCoverScale viewportW viewportH imgW imgH * MIN_ZOOM_MULTIPLIER,
       getCoverScale viewportW viewportH imgW imgH * MAX_ZOOM_MULTIPLIER,
       getCoverScale viewportW viewportH imgW imgH⟩ := by
  have h : ¬(viewportW ≤ 0 ∨ viewportH ≤ 0 ∨ imgW ≤ 0 ∨ imgH ≤ 0) := by
    push_neg
    exact ⟨hvw, hvh, hiw, hih⟩
  unfold getScaleLimits
  rw [if_neg h]

/-! ### Claim theorems -/

/-- Claim C1: for every positive viewport and image dimension and every
positive scale, the translation returned by `clampTranslation` — and
therefore the transform stored after every `panBy`, `applyScale`/`zoomAt`
and `setTransformDirect` operation — satisfies the cover condition: on the
X axis, if `imgW*scale ≥ viewportW` then
`viewportW - imgW*scale ≤ translateX ≤ 0`, otherwise
`translateX = (viewportW - imgW*scale)/2` exactly; symmetrically on Y. -/
theorem cover_condition_after_clamp_and_store_ops
    (viewportW viewportH imgW imgH scale : ℚ)
    (hvw : 0 < viewportW) (hvh : 0 < viewportH)
    (hiw : 0 < imgW) (hih : 0 < imgH) (hs : 0 < scale)
    (tX tY deltaX deltaY newScale deltaScale px py : ℚ)
    (anchorPx anchorPy : Option ℚ) (prev t : ViewTransform) :
    (CoverAxis viewportW (imgW * scale)
        (clampTranslation viewportW viewportH imgW imgH scale tX tY).translateX ∧
      CoverAxis viewportH (imgH * scale)
        (clampTranslation viewportW viewportH imgW imgH scale tX tY).translateY) ∧
    CoverCond viewportW viewportH imgW imgH
      (panBy viewportW viewportH imgW imgH prev deltaX deltaY) ∧
    CoverCond viewportW viewportH imgW imgH
      (applyScale viewportW viewportH imgW imgH prev newScale anchorPx anchorPy) ∧
    CoverCond viewportW viewportH imgW imgH
      (zoomAt viewportW viewportH imgW imgH prev px py deltaScale) ∧
    CoverCond viewportW viewportH imgW imgH
      (setTransformDirect viewportW viewportH imgW imgH t) :=
  ⟨⟨clampTranslationAxis_cover _ _ _, clampTranslationAxis_cover _ _ _⟩,
   clampTransform_cover _ _ _ _ _,
   clampTransform_cover _ _ _ _ _,
   clampTransform_cover _ _ _ _ _,
   clampTransform_cover _ _ _ _ _⟩

/-- Witness for C1 at a 100×100 viewport with a 100×100 image at scale 1. -/
theorem cover_condition_witness :
    (CoverAxis 100 (100 * 1) (clampTranslation 100 100 100 100 1 5 (-7)).translateX ∧
      CoverAxis 100 (100 * 1) (clampTranslation 100 100 100 100 1 5 (-7)).translateY) ∧
    CoverCond 100 100 100 100 (panBy 100 100 100 100 ⟨1, 0, 0⟩ 3 4) ∧
    CoverCond 100 100 100 100 (applyScale 100 100 100 100 ⟨1, 0, 0⟩ 2 none none) ∧
    CoverCond 100 100 100 100 (zoomAt 100 100 100 100 ⟨1, 0, 0⟩ 10 10 2) ∧
    CoverCond 100 100 100 100 (setTransformDirect 100 100 100 100 ⟨1, 20, -20⟩) :=
  cover_condition_after_clamp_and_store_ops 100 100 100 100 1
    (by norm_num) (by norm_num) (by norm_num) (by norm_num) (by norm_num)
    5 (-7) 3 4 2 2 10 10 none none ⟨1, 0, 0⟩ ⟨1, 20, -20⟩

/-- Claim C2 (counterexample): for viewport 450×350 and image 1920×1080 the
cover fit gives `translateY = 0`, not a negative `translateY` as the claim
states (the claim swaps the two axes): the scaled image is exactly as tall
as the viewport (`1080 * 35/108 = 350`) and wider than it, so `translateX`
is the negative value `-775/9 ≈ -86.1`, far from the claimed `≈ 0`. -/
theorem initial_fit_450x350_counterexample :
    (getCenterTranslation 450 350 1920 1080 (getCoverScale 450 350 1920 1080)).translateY = 0 ∧
    ¬ (getCenterTranslation 450 350 1920 1080 (getCoverScale 450 350 1920 1080)).translateY < 0 ∧
    (getCenterTranslation 450 350 1920 1080 (getCoverScale 450 350 1920 1080)).translateX
      = -775 / 9 := by
  norm_num [getCenterTranslation, getCoverScale, max_def]

/-- Claim C2 (amended): for viewport 450×350 and image 1920×1080 the cover
fit yields `baseScale = max(450/1920, 350/1080) = 35/108 ≈ 0.3241`;
`translateX = -775/9` is negative (image wider than the viewport, centred
horizontally) and `translateY = 0` (image fills the height edge-to-edge). -/
theorem initial_fit_450x350 :
    getCoverScale 450 350 1920 1080 = 35 / 108 ∧
    (getCenterTranslation 450 350 1920 1080 (getCoverScale 450 350 1920 1080)).translateX
      = -775 / 9 ∧
    (getCenterTranslation 450 350 1920 1080 (getCoverScale 450 350 1920 1080)).translateX < 0 ∧
    (getCenterTranslation 450 350 1920 1080 (getCoverScale 450 350 1920 1080)).translateY = 0 := by
  norm_num [getCenterTranslation, getCoverScale, max_def]

/-- Claim C3: when the final `clampTranslation` step of `zoomAtPoint` does
not alter the computed translation (stated as the hypotheses `hX`, `hY`),
the image point under the anchor is preserved:
`(px - tx')/newScale = (px - tx)/oldScale`, and symmetrically on Y. In the
rational model the equality is exact. -/
theorem zoomAtPoint_preserves_anchor
    (viewportW viewportH imgW imgH oldScale newScale tX tY px py : ℚ)
    (hold : 0 < oldScale) (hnew : 0 < newScale)
    (hX : (zoomAtPoint viewportW viewportH imgW imgH oldScale newScale tX tY px py).translateX
        = px - (px - tX) * (newScale / oldScale))
    (hY : (zoomAtPoint viewportW viewportH imgW imgH oldScale newScale tX tY px py).translateY
        = py - (py - tY) * (newScale / oldScale)) :
    (px - (zoomAtPoint viewportW viewportH imgW imgH oldScale newScale tX tY px py).translateX)
        / newScale = (px - tX) / oldScale ∧
    (py - (zoomAtPoint viewportW viewportH imgW imgH oldScale newScale tX tY px py).translateY)
        / newScale = (py - tY) / oldScale := by
  have h1 : oldScale ≠ 0 := hold.ne'
  have h2 : newScale ≠ 0 := hnew.ne'
  rw [hX, hY]
  constructor <;> (field_simp; ring)

/-- Witness for C3: zooming from scale 1 to 2 anchored at the bottom-right
corner of a 100×100 viewport over a 100×100 image; the clamp does not move
the computed translation `(-100, -100)`. -/
theorem zoomAtPoint_anchor_witness :
    (100 - (zoomAtPoint 100 100 100 100 1 2 0 0 100 100).translateX) / 2 = (100 - 0) / 1 ∧
    (100 - (zoomAtPoint 100 100 100 100 1 2 0 0 100 100).translateY) / 2 = (100 - 0) / 1 :=
  zoomAtPoint_preserves_anchor 100 100 100 100 1 2 0 0 100 100 (by norm_num) (by norm_num)
    (by norm_num [zoomAtPoint, clampTranslation, clampTranslationAxis, min_def, max_def])
    (by norm_num [zoomAtPoint, clampTranslation, clampTranslationAxis, min_def, max_def])

/-- Claim C4: on a viewport-only resize with the natural image unchanged,
if the scale before the resize is `k * baseScale_old` then the stored scale
afterwards is `clamp(k * baseScale_new, baseScale_new, maxScale_new)`,
with the new base and max scale taken from `getScaleLimits` of the new
viewport. -/
theorem resize_preserves_relative_zoom
    (oldW oldH viewportW viewportH naturalW naturalH k : ℚ) (t : ViewTransform)
    (how : 0 < oldW) (hoh : 0 < oldH) (hvw : 0 < viewportW) (hvh : 0 < viewportH)
    (hnw : 0 < naturalW) (hnh : 0 < naturalH)
    (hk : t.scale = k * getCoverScale oldW oldH naturalW naturalH) :
    (resizeReconcile oldW oldH viewportW viewportH naturalW naturalH t).scale =
      max (getScaleLimits viewportW viewportH naturalW naturalH).baseScale
        (min (getScaleLimits viewportW viewportH naturalW naturalH).maxScale
          (k * (getScaleLimits viewportW viewportH naturalW naturalH).baseScale)) := by
  have hob : 0 < getCoverScale oldW oldH naturalW naturalH := getCoverScale_pos how hnw
  simp only [resizeReconcile, getScaleLimits_of_pos hvw hvh hnw hnh]
  rw [if_pos hob, hk, mul_div_assoc, div_self hob.ne', mul_one]
  ring_nf

/-- Witness for C4: a 100×100 viewport resized to 200×100 over a 100×100
image with relative zoom `k = 2`. -/
theorem resize_zoom_witness :
    (resizeReconcile 100 100 200 100 100 100 ⟨2, 0, 0⟩).scale =
      max (getScaleLimits 200 100 100 100).baseScale
        (min (getScaleLimits 200 100 100 100).maxScale
          (2 * (getScaleLimits 200 100 100 100).baseScale)) :=
  resize_preserves_relative_zoom 100 100 200 100 100 100 2 ⟨2, 0, 0⟩
    (by norm_num) (by norm_num) (by norm_num) (by norm_num) (by norm_num) (by norm_num)
    (by norm_num [getCoverScale])

/-- Claim C5: with all four dimensions strictly positive, `getScaleLimits`
returns `baseScale = max(viewportW/imgW, viewportH/imgH)`,
`minScale = baseScale*0.4`, `maxScale = baseScale*3.0`, and
`minScale < maxScale` strictly; the statement is universal in the
dimensions, so it covers every recomputation, including after a resize. -/
theorem scale_limits_bounds
    (viewportW viewportH imgW imgH : ℚ)
    (hvw : 0 < viewportW) (hvh : 0 < viewportH) (hiw : 0 < imgW) (hih : 0 < imgH) :
    (getScaleLimits viewportW viewportH imgW imgH).baseScale
        = max (viewportW / imgW) (viewportH / imgH) ∧
    (getScaleLimits viewportW viewportH imgW imgH).minScale
        = (getScaleLimits viewportW viewportH imgW imgH).baseScale * 0.4 ∧
    (getScaleLimits viewportW viewportH imgW imgH).maxScale
        = (getScaleLimits viewportW viewportH imgW imgH).baseScale * 3.0 ∧
    (getScaleLimits viewportW viewportH imgW imgH).minScale
        < (getScaleLimits viewportW viewportH imgW imgH).maxScale := by
  have hb : 0 < getCoverScale viewportW viewportH imgW imgH := getCoverScale_pos hvw hiw
  have himg : ¬(imgW ≤ 0 ∨ imgH ≤ 0) := by
    push_neg
    exact ⟨hiw, hih⟩
  rw [getScaleLimits_of_pos hvw hvh hiw hih]
  refine ⟨?_, by norm_num [MIN_ZOOM_MULTIPLIER], by norm_num [MAX_ZOOM_MULTIPLIER], ?_⟩
  · unfold getCoverScale
    rw [if_neg himg]
  · simp only
    rw [MIN_ZOOM_MULTIPLIER, MAX_ZOOM_MULTIPLIER]
    exact mul_lt_mul_of_pos_left (by norm_num) hb

/-- Witness for C5 at viewport 450×350 with image 1920×1080. -/
theorem scale_limits_bounds_witness :
    (getScaleLimits 450 350 1920 1080).baseScale = max (450 / 1920) (350 / 1080) ∧
    (getScaleLimits 450 350 1920 1080).minScale
        = (getScaleLimits 450 350 1920 1080).baseScale * 0.4 ∧
    (getScaleLimits 450 350 1920 1080).maxScale
        = (getScaleLimits 450 350 1920 1080).baseScale * 3.0 ∧
    (getScaleLimits 450 350 1920 1080).minScale < (getScaleLimits 450 350 1920 1080).maxScale :=
  scale_limits_bounds 450 350 1920 1080 (by norm_num) (by norm_num) (by norm_num) (by norm_num)

/-- Claim C6: for every input in which some viewport or image dimension is
`≤ 0`, `getScaleLimits` returns strictly positive `minScale`, `maxScale`
and `baseScale` (in the rational model every value is finite, and the
guard branch avoids the divisions entirely), and `getCoverScale` returns 1
whenever either image dimension is `≤ 0` — so no degenerate input produces
a scale of 0. -/
theorem degenerate_dimensions_safe
    (viewportW viewportH imgW imgH : ℚ)
    (hdeg : viewportW ≤ 0 ∨ viewportH ≤ 0 ∨ imgW ≤ 0 ∨ imgH ≤ 0) :
    0 < (getScaleLimits viewportW viewportH imgW imgH).minScale ∧
    0 < (getScaleLimits viewportW viewportH imgW imgH).maxScale ∧
    0 < (getScaleLimits viewportW viewportH imgW imgH).baseScale ∧
    (imgW ≤ 0 ∨ imgH ≤ 0 → getCoverScale viewportW viewportH imgW imgH = 1) := by
  unfold getScaleLimits
  rw [if_pos hdeg]
  refine ⟨by norm_num, by norm_num, by norm_num, fun h => ?_⟩
  unfold getCoverScale
  rw [if_pos h]

/-- Witness for C6 at a zero-width viewport and a zero-width image. -/
theorem degenerate_dimensions_witness :
    0 < (getScaleLimits 0 350 0 1080).minScale ∧
    0 < (getScaleLimits 0 350 0 1080).maxScale ∧
    0 < (getScaleLimits 0 350 0 1080).baseScale ∧
    ((0:ℚ) ≤ 0 ∨ (1080:ℚ) ≤ 0 → getCoverScale 0 350 0 1080 = 1) :=
  degenerate_dimensions_safe 0 350 0 1080 (Or.inl (by norm_num))

/-- Claim C7: for a viewport rectangle `r` of non-negative size lying fully
within the rendered image bounds (so none of the clamps in
`viewportCropToNaturalPx` engages), converting to native-image space and
back returns `r` exactly (the rational model's version of floating-point
tolerance). -/
theorem crop_roundtrip
    (r : ViewportRect) (scale tx ty naturalW naturalH viewportW viewportH : ℚ)
    (hs : 0 < scale) (hw : 0 ≤ r.width) (hh : 0 ≤ r.height)
    (hx1 : tx ≤ r.x) (hx2 : r.x + r.width ≤ tx + naturalW * scale)
    (hy1 : ty ≤ r.y) (hy2 : r.y + r.height ≤ ty + naturalH * scale) :
    imageCropToViewportPx (viewportCropToNaturalPx r scale tx ty naturalW naturalH)
        naturalW naturalH scale tx ty viewportW viewportH
      = ⟨CropUnit.px, r.x, r.y, r.width, r.height⟩ := by
  have hsne : scale ≠ 0 := hs.ne'
  have hix0 : 0 ≤ (r.x - tx) / scale := div_nonneg (by linarith) hs.le
  have hiy0 : 0 ≤ (r.y - ty) / scale := div_nonneg (by linarith) hs.le
  have hiw0 : 0 ≤ r.width / scale := div_nonneg hw hs.le
  have hih0 : 0 ≤ r.height / scale := div_nonneg hh hs.le
  have hixw : (r.x - tx) / scale + r.width / scale ≤ naturalW := by
    rw [div_add_div_same, div_le_iff₀ hs]
    linarith
  have hiyh : (r.y - ty) / scale + r.height / scale ≤ naturalH := by
    rw [div_add_div_same, div_le_iff₀ hs]
    linarith
  have hixW : (r.x - tx) / scale ≤ naturalW :=
    le_trans (le_add_of_nonneg_right hiw0) hixw
  have hiyH : (r.y - ty) / scale ≤ naturalH :=
    le_trans (le_add_of_nonneg_right hih0) hiyh
  have hmid : viewportCropToNaturalPx r scale tx ty naturalW naturalH
      = ⟨CropUnit.px, (r.x - tx) / scale, (r.y - ty) / scale,
         r.width / scale, r.height / scale⟩ := by
    simp only [viewportCropToNaturalPx]
    rw [min_eq_left hixW, max_eq_right hix0, min_eq_left hiyH, max_eq_right hiy0,
      min_eq_left hixw, min_eq_left hiyh,
      max_eq_right (le_add_of_nonneg_right hiw0),
      max_eq_right (le_add_of_nonneg_right hih0),
      add_sub_cancel_left, add_sub_cancel_left,
      max_eq_right hiw0, max_eq_right hih0]
  rw [hmid]
  simp only [imageCropToViewportPx]
  rw [Crop.mk.injEq]
  refine ⟨rfl, ?_, ?_, ?_, ?_⟩ <;>
    simp only [reduceCtorEq, if_false, div_mul_cancel₀ _ hsne, sub_add_cancel]

/-- Witness for C7: the rectangle `(10, 10) — 20×20` at scale 1 with no
translation over a 100×100 image round-trips to itself. -/
theorem crop_roundtrip_witness :
    imageCropToViewportPx (viewportCropToNaturalPx ⟨10, 10, 20, 20⟩ 1 0 0 100 100)
        100 100 1 0 0 50 50
      = ⟨CropUnit.px, 10, 10, 20, 20⟩ :=
  crop_roundtrip ⟨10, 10, 20, 20⟩ 1 0 0 100 100 50 50 (by norm_num) (by norm_num)
    (by norm_num) (by norm_num) (by norm_num) (by norm_num) (by norm_num)

/-- Claim C8 (counterexample): with no existing crop, no host default and no
completed crop, a 150×150 viewport gets the crop rectangle
`{x: 0, y: 0, width: 150, height: 150}` — exactly the full-viewport
rectangle the claim says is never produced (the default is a fixed 200×200
box clamped to the viewport, not a fraction of it). -/
theorem crop_init_default_counterexample :
    cropInitFallback none none 1920 1080 1 0 0 150 150
      = ⟨CropUnit.px, 0, 0, 150, 150⟩ := by
  norm_num [cropInitFallback, cropInitFromCompleted, defaultViewportCrop200, min_def]

/-- Claim C8 (amended): when crop-editing is first entered with no existing
crop, no host default and no completed crop, the created crop rectangle is
centred in the viewport and sized `min(200, viewportW) × min(200, viewportH)`
(a fixed 200×200 viewport-pixel box clamped to the viewport); it is the
full-viewport rectangle exactly when both viewport dimensions are ≤ 200. -/
theorem crop_init_default_centered
    (naturalW naturalH scale tx ty viewportW viewportH : ℚ)
    (hvw : 0 < viewportW) (hvh : 0 < viewportH) (c : Crop)
    (hc : c = cropInitFallback none none naturalW naturalH scale tx ty viewportW viewportH) :
    c.width = min 200 viewportW ∧ c.height = min 200 viewportH ∧
    c.x = (viewportW - c.width) / 2 ∧ c.y = (viewportH - c.height) / 2 ∧
    ((c.width = viewportW ∧ c.height = viewportH) ↔ (viewportW ≤ 200 ∧ viewportH ≤ 200)) := by
  subst hc
  simp only [cropInitFallback, cropInitFromCompleted, defaultViewportCrop200]
  refine ⟨trivial, trivial, trivial, trivial, ?_⟩
  constructor
  · rintro ⟨h1, h2⟩
    exact ⟨min_eq_right_iff.mp h1, min_eq_right_iff.mp h2⟩
  · rintro ⟨h1, h2⟩
    exact ⟨min_eq_right h1, min_eq_right h2⟩

/-- Witness for C8 (amended) at a 500×300 viewport: the created crop is the
centred 200×200 box `(150, 50) — 200×200`, not the full viewport. -/
theorem crop_init_default_centered_witness :
    (⟨CropUnit.px, 150, 50, 200, 200⟩ : Crop).width = min 200 500 ∧
    (⟨CropUnit.px, 150, 50, 200, 200⟩ : Crop).height = min 200 300 ∧
    (⟨CropUnit.px, 150, 50, 200, 200⟩ : Crop).x
      = (500 - (⟨CropUnit.px, 150, 50, 200, 200⟩ : Crop).width) / 2 ∧
    (⟨CropUnit.px, 150, 50, 200, 200⟩ : Crop).y
      = (300 - (⟨CropUnit.px, 150, 50, 200, 200⟩ : Crop).height) / 2 ∧
    (((⟨CropUnit.px, 150, 50, 200, 200⟩ : Crop).width = 500 ∧
      (⟨CropUnit.px, 150, 50, 200, 200⟩ : Crop).height = 300)
      ↔ ((500:ℚ) ≤ 200 ∧ (300:ℚ) ≤ 200)) :=
  crop_init_default_centered 1920 1080 1 0 0 500 300 (by norm_num) (by norm_num) _
    (by norm_num [cropInitFallback, cropInitFromCompleted, defaultViewportCrop200, min_def])

/-- Claim C9: whenever the transform is ready, the published zoom-multiplier
output equals `scale / baseScale` clamped to
`[ZOOM_MULTIPLIER_MIN, ZOOM_MULTIPLIER_MAX] = [0.4, 3.0]`, where
`baseScale` is the cover scale of the current viewport/image pair (which is
automatically positive when the transform is ready); any published value
lies in that interval. -/
theorem zoomMultiplier_output_spec
    (viewportW viewportH naturalW naturalH scale : ℚ)
    (hready : isTransformReady viewportW viewportH naturalW naturalH = true) :
    zoomMultiplierOutput viewportW viewportH naturalW naturalH scale
      = some (max ZOOM_MULTIPLIER_MIN (min ZOOM_MULTIPLIER_MAX
          (scale / getCoverScale viewportW viewportH naturalW naturalH))) ∧
    ∀ v ∈ zoomMultiplierOutput viewportW viewportH naturalW naturalH scale,
      ZOOM_MULTIPLIER_MIN ≤ v ∧ v ≤ ZOOM_MULTIPLIER_MAX := by
  obtain ⟨hnw, hnh, hvw, hvh⟩ :
      0 < naturalW ∧ 0 < naturalH ∧ 0 < viewportW ∧ 0 < viewportH := by
    simpa [isTransformReady] using hready
  have hb : 0 < getCoverScale viewportW viewportH naturalW naturalH :=
    getCoverScale_pos hvw hnw
  have h1 : zoomMultiplierOutput viewportW viewportH naturalW naturalH scale
      = some (max ZOOM_MULTIPLIER_MIN (min ZOOM_MULTIPLIER_MAX
          (scale / getCoverScale viewportW viewportH naturalW naturalH))) := by
    simp only [zoomMultiplierOutput, hready, Bool.not_true, Bool.false_eq_true, if_false,
      getScaleLimits_of_pos hvw hvh hnw hnh]
    rw [if_neg (not_le.mpr hb)]
  refine ⟨h1, fun v hv => ?_⟩
  rw [h1, Option.mem_def, Option.some.injEq] at hv
  subst hv
  exact ⟨le_max_left _ _,
    max_le (by norm_num [ZOOM_MULTIPLIER_MIN, ZOOM_MULTIPLIER_MAX]) (min_le_left _ _)⟩

/-- Witness for C9: a ready 100×100 viewport over a 50×50 image at scale 5
publishes `clamp(5 / 2, 0.4, 3.0)`. -/
theorem zoomMultiplier_output_witness :
    zoomMultiplierOutput 100 100 50 50 5
      = some (max ZOOM_MULTIPLIER_MIN (min ZOOM_MULTIPLIER_MAX
          (5 / getCoverScale 100 100 50 50))) ∧
    ∀ v ∈ zoomMultiplierOutput 100 100 50 50 5,
      ZOOM_MULTIPLIER_MIN ≤ v ∧ v ≤ ZOOM_MULTIPLIER_MAX :=
  zoomMultiplier_output_spec 100 100 50 50 5 (by norm_num [isTransformReady])

/-- Claim C10: `clampTranslation` is idempotent — re-clamping its own output
with the same viewport, image and scale arguments returns it unchanged, for
all inputs (no positivity required) — and consequently `setTransformDirect`
never moves an already-stored (clamped) transform. -/
theorem clampTranslation_idempotent
    (viewportW viewportH imgW imgH scale tX tY : ℚ) (t : ViewTransform) :
    clampTranslation viewportW viewportH imgW imgH scale
        (clampTranslation viewportW viewportH imgW imgH scale tX tY).translateX
        (clampTranslation viewportW viewportH imgW imgH scale tX tY).translateY
      = clampTranslation viewportW viewportH imgW imgH scale tX tY ∧
    setTransformDirect viewportW viewportH imgW imgH
        (setTransformDirect viewportW viewportH imgW imgH t)
      = setTransformDirect viewportW viewportH imgW imgH t := by
  constructor
  · simp only [clampTranslation]
    rw [clampTranslationAxis_idem, clampTranslationAxis_idem]
  · simp only [setTransformDirect, clampTransform, clampTranslation]
    rw [clampTranslationAxis_idem, clampTranslationAxis_idem]

end ImageCrop
